import Mathlib

/-!
Shallow embedding of the overtime-clock server (src/server.js) in Lean 4.

JavaScript numbers are modelled as rationals (ℚ); `null`/absent numeric
fields are modelled as `Option ℚ`, with explicit helpers mirroring the
JS coercions the source relies on (`x || d`, `null` coercing to 0 in
arithmetic, truthiness of numbers). Timestamps are in milliseconds, as in
JS `Date`; the source divides by 1000 to get seconds. The in-memory
`Map` objects (sessions, per-user overtime tracking) are modelled as
association lists with `Map.get`/`Map.set` semantics. Error and warning
message strings are abstracted to an inductive tag type that records one
constructor per `push` site in the source (the interpolated numbers are
kept as fields of the tag).
-/

namespace OvertimeClock

/-- Truthiness of an optional JS number: `undefined`, `null` and `0` are
falsy, every other number is truthy. -/
def jsTruthy (x : Option ℚ) : Bool :=
  match x with
  | none => false
  | some v => decide (v ≠ 0)

/-- JS `x || d` where `x` is an optional number and the result is used as a
number: returns `d` when `x` is falsy (absent or zero), otherwise the value
of `x`. Models `hours || 1` in the source. -/
def jsOrNum (x : Option ℚ) (d : ℚ) : ℚ :=
  if jsTruthy x then x.getD d else d

/-- JS `x || null` where `x` is an optional number: `none` when `x` is
falsy (absent or zero), otherwise `x` itself. Models `hours || null`. -/
def jsOrNull (x : Option ℚ) : Option ℚ :=
  if jsTruthy x then x else none

/-- Numeric coercion of an optional JS value used in arithmetic: `null`
coerces to 0 (as in `current.weekly += hours` with `hours === null`, and
`session.totalHours * 3600` with a null `totalHours`). -/
def jsNum (x : Option ℚ) : ℚ := x.getD 0

/-- Association list lookup with JS `Map.get` semantics. -/
def mapGet {α β : Type} [DecidableEq α] (m : List (α × β)) (k : α) : Option β :=
  match m with
  | [] => none
  | (k₀, v₀) :: rest => if k₀ = k then some v₀ else mapGet rest k

/-- Association list update with JS `Map.set` semantics: replace the entry
for the key when present, otherwise add a new entry. -/
def mapSet {α β : Type} [DecidableEq α] (m : List (α × β)) (k : α) (v : β) :
    List (α × β) :=
  match m with
  | [] => [(k, v)]
  | (k₀, v₀) :: rest => if k₀ = k then (k, v) :: rest else (k₀, v₀) :: mapSet rest k v

/-! Static configuration: Ethiopian labor-law limits and multipliers
(src/server.js lines 35-46). -/

def MAX_HOURS_PER_DAY : ℚ := 4
def MAX_HOURS_PER_WEEK : ℚ := 12
def MAX_HOURS_PER_YEAR : ℚ := 100

/-- The OVERTIME_MULTIPLIERS object: a finite lookup from overtime type to
multiplier. -/
def OVERTIME_MULTIPLIERS (t : String) : Option ℚ :=
  if t = "normal" then some 1.5
  else if t = "night" then some 1.75
  else if t = "sunday" then some 2.0
  else if t = "holiday" then some 2.5
  else none

/-- The lookup `OVERTIME_MULTIPLIERS[overtimeType] || 1.5` used by both pay
calculators: unknown types fall back to 1.5. -/
def multiplierOf (t : String) : ℚ :=
  (OVERTIME_MULTIPLIERS t).getD 1.5

/-- Per-user overtime tracking record: `{ weekly, yearly }`. -/
structure Tracking where
  weekly : ℚ
  yearly : ℚ
deriving DecidableEq, Repr

/-- The default zeroed tracking `{ weekly: 0, yearly: 0 }` used when a user
has no entry in the tracking map. -/
def zeroTracking : Tracking := { weekly := 0, yearly := 0 }

/-- Error and warning messages, one constructor per `push` site in
validateOvertimeHours; the interpolated numbers of the weekly and yearly
warnings are kept as fields. -/
inductive Msg where
  | nonPositiveHours
  | dailyLimit
  | weeklyLimit (current add total : ℚ)
  | yearlyLimit (current add total : ℚ)
  | sustainability
deriving DecidableEq, Repr

/-- Result of validateOvertimeHours: `{ isValid, errors, warnings }`. -/
structure ValidationResult where
  isValid : Bool
  errors : List Msg
  warnings : List Msg
deriving DecidableEq, Repr

/-- validateOvertimeHours (src/server.js lines 49-84). Reads the per-user
tracking map (global in the source, an explicit argument here). The `type`
parameter is accepted but unused, exactly as in the source. -/
def validateOvertimeHours (trackMap : List (String × Tracking)) (hours : ℚ)
    (type : String) (userId : String) : ValidationResult :=
  let errors := if hours ≤ 0 then [Msg.nonPositiveHours] else []
  let w₁ := if hours > MAX_HOURS_PER_DAY then [Msg.dailyLimit] else []
  let userTracking := (mapGet trackMap userId).getD zeroTracking
  let newWeeklyTotal := userTracking.weekly + hours
  let w₂ := if newWeeklyTotal > MAX_HOURS_PER_WEEK then
      [Msg.weeklyLimit userTracking.weekly hours newWeeklyTotal] else []
  let newYearlyTotal := userTracking.yearly + hours
  let w₃ := if newYearlyTotal > MAX_HOURS_PER_YEAR then
      [Msg.yearlyLimit userTracking.yearly hours newYearlyTotal] else []
  let w₄ := if hours > 8 then [Msg.sustainability] else []
  { isValid := errors.length == 0
    errors := errors
    warnings := w₁ ++ w₂ ++ w₃ ++ w₄ }

/-- calculateHourlyRate (src/server.js lines 86-88). -/
def calculateHourlyRate (salary dailyHours : ℚ) : ℚ :=
  salary / (30 * dailyHours)

/-- The calculation snapshot `{ hourlyRate, multiplier, totalPay,
ratePerSecond }`. -/
structure Calc where
  hourlyRate : ℚ
  multiplier : ℚ
  totalPay : ℚ
  ratePerSecond : ℚ
deriving DecidableEq, Repr

/-- calculateOvertimePayFromRate (src/server.js lines 104-115). -/
def calculateOvertimePayFromRate (hourlyRate : ℚ) (overtimeType : String)
    (hours : ℚ) : Calc :=
  let multiplier := multiplierOf overtimeType
  let totalPay := hourlyRate * multiplier * hours
  let ratePerSecond := totalPay / (hours * 3600)
  { hourlyRate, multiplier, totalPay, ratePerSecond }

/-- calculateOvertimePay (src/server.js lines 90-102): derives the hourly
rate from salary and daily hours, then proceeds as the rate-based variant. -/
def calculateOvertimePay (salary dailyHours : ℚ) (overtimeType : String)
    (hours : ℚ) : Calc :=
  let hourlyRate := calculateHourlyRate salary dailyHours
  let multiplier := multiplierOf overtimeType
  let totalPay := hourlyRate * multiplier * hours
  let ratePerSecond := totalPay / (hours * 3600)
  { hourlyRate, multiplier, totalPay, ratePerSecond }

/-- updateUserOvertimeTracking (src/server.js lines 117-122). The `hours`
argument may be `null` (stop of an open-ended session passes
`session.totalHours === null`); JS `+=` then adds 0. -/
def updateUserOvertimeTracking (m : List (String × Tracking)) (userId : String)
    (hours : Option ℚ) : List (String × Tracking) :=
  let current := (mapGet m userId).getD zeroTracking
  mapSet m userId
    { weekly := current.weekly + jsNum hours
      yearly := current.yearly + jsNum hours }

/-- A stored session (src/server.js lines 195-206, plus the fields written
later by stop, the scheduler tick and the status query). The session id is
`Date.now()`; the source stores its decimal string, modelled here as the
numeric timestamp itself. `remainingTime` distinguishes a never-written
field (`none`), an explicit `null` (`some none`) and a number
(`some (some x)`). -/
structure Session where
  id : ℕ
  hourlyRate : ℚ
  overtimeType : String
  totalHours : Option ℚ
  calculation : Calc
  startTime : ℚ
  isActive : Bool
  currentEarnings : ℚ
  warnings : List Msg
  isOpenEnded : Bool
  endTime : Option ℚ := none
  duration : Option ℚ := none
  elapsedTime : Option ℚ := none
  remainingTime : Option (Option ℚ) := none
deriving DecidableEq, Repr

/-- Events emitted to a session room by the scheduler tick. -/
inductive Event where
  | earningsUpdate (currentEarnings elapsedTime : ℚ)
      (remainingTime : Option ℚ) (isOpenEnded : Bool)
  | sessionComplete (finalEarnings totalDuration : ℚ)
deriving DecidableEq, Repr

/-- One scheduler step for a single session (the body of the forEach inside
setInterval, src/server.js lines 336-377): returns the updated session and
the events emitted for it. Inactive sessions are skipped. Note the tick
writes only `currentEarnings` (and on completion `isActive`, `endTime`,
`duration`); `elapsedTime` and `remainingTime` appear only in the emitted
payloads, not on the stored session. -/
def tick (session : Session) (now : ℚ) : Session × List Event :=
  if session.isActive then
    let elapsedSeconds := (now - session.startTime) / 1000
    if session.isOpenEnded then
      ({ session with currentEarnings := session.calculation.ratePerSecond * elapsedSeconds },
       [Event.earningsUpdate (session.calculation.ratePerSecond * elapsedSeconds)
          elapsedSeconds none true])
    else
      let maxSeconds := jsNum session.totalHours * 3600
      if elapsedSeconds < maxSeconds then
        ({ session with currentEarnings := session.calculation.ratePerSecond * elapsedSeconds },
         [Event.earningsUpdate (session.calculation.ratePerSecond * elapsedSeconds)
            elapsedSeconds (some (maxSeconds - elapsedSeconds)) false])
      else
        ({ session with
            isActive := false
            endTime := some now
            duration := some elapsedSeconds
            currentEarnings := session.calculation.totalPay },
         [Event.sessionComplete session.calculation.totalPay elapsedSeconds])
  else (session, [])

/-- The in-place session mutation performed by GET /api/session-status
(src/server.js lines 266-289). Unlike the scheduler tick, it also stores
`elapsedTime` and `remainingTime` on the session, and it emits nothing. -/
def sessionStatusUpdate (session : Session) (now : ℚ) : Session :=
  if session.isActive then
    let elapsedSeconds := (now - session.startTime) / 1000
    if session.isOpenEnded then
      { session with
          currentEarnings := session.calculation.ratePerSecond * elapsedSeconds
          elapsedTime := some elapsedSeconds
          remainingTime := some none }
    else
      let maxSeconds := jsNum session.totalHours * 3600
      if elapsedSeconds < maxSeconds then
        { session with
            currentEarnings := session.calculation.ratePerSecond * elapsedSeconds
            elapsedTime := some elapsedSeconds
            remainingTime := some (some (maxSeconds - elapsedSeconds)) }
      else
        { session with
            isActive := false
            endTime := some now
            duration := some elapsedSeconds
            currentEarnings := session.calculation.totalPay
            elapsedTime := some elapsedSeconds
            remainingTime := some (some 0) }
  else session

/-- The response body of GET /api/session-status (src/server.js 291-300). -/
structure StatusResponse where
  currentEarnings : ℚ
  elapsedTime : Option ℚ
  remainingTime : Option (Option ℚ)
  isOpenEnded : Bool
  isActive : Bool
deriving DecidableEq, Repr

def statusResponseOf (s : Session) : StatusResponse :=
  { currentEarnings := s.currentEarnings
    elapsedTime := s.elapsedTime
    remainingTime := s.remainingTime
    isOpenEnded := s.isOpenEnded
    isActive := s.isActive }

/-- The whole mutable server state: the sessions map and the per-user
overtime tracking map (src/server.js lines 29-32). -/
structure ServerState where
  sessions : List (ℕ × Session)
  userOvertimeTracking : List (String × Tracking)
deriving DecidableEq, Repr

/-- Structured request errors (HTTP 400/404 bodies). -/
inductive ApiError where
  | missingFields
  | invalidRate
  | validationFailed (errors : List Msg)
  | notFound
deriving DecidableEq, Repr

/-- Response body of POST /api/calculate. -/
structure CalcResponse where
  calculation : Calc
  warnings : List Msg
  isPreview : Bool
deriving DecidableEq, Repr

/-- POST /api/calculate (src/server.js lines 129-163). Pure: does not touch
the server state; reads the tracking map through validateOvertimeHours.
The falsiness checks `!hourlyRate` and `!overtimeType` are `rate = 0` and
`type = ""` on the modelled domain. -/
def calculateEndpoint (st : ServerState) (hourlyRate : ℚ) (overtimeType : String)
    (hours : Option ℚ) : Except ApiError CalcResponse :=
  if hourlyRate = 0 ∨ overtimeType = "" then .error .missingFields
  else if hourlyRate ≤ 0 then .error .invalidRate
  else
    let hoursToUse := jsOrNum hours 1
    let validation := validateOvertimeHours st.userOvertimeTracking hoursToUse overtimeType "default"
    if !validation.isValid then .error (.validationFailed validation.errors)
    else
      let calculation := calculateOvertimePayFromRate hourlyRate overtimeType hoursToUse
      .ok { calculation
            warnings := validation.warnings
            isPreview := !(jsTruthy hours) }

/-- Response body of POST /api/start-session. -/
structure StartResponse where
  sessionId : ℕ
  calculation : Calc
  warnings : List Msg
  isOpenEnded : Bool
deriving DecidableEq, Repr

/-- POST /api/start-session (src/server.js lines 165-215). `now` is the
millisecond timestamp used both for the session id (`Date.now()`) and for
`startTime` (`new Date()`). -/
def startSessionEndpoint (st : ServerState) (hourlyRate : ℚ)
    (overtimeType : String) (hours : Option ℚ) (now : ℕ) :
    ServerState × Except ApiError StartResponse :=
  if hourlyRate = 0 ∨ overtimeType = "" then (st, .error .missingFields)
  else if hourlyRate ≤ 0 then (st, .error .invalidRate)
  else
    let totalHours := jsOrNull hours
    let hoursToUse := jsOrNum totalHours 1
    let validation := validateOvertimeHours st.userOvertimeTracking hoursToUse overtimeType "default"
    if !validation.isValid then (st, .error (.validationFailed validation.errors))
    else
      let calculation := calculateOvertimePayFromRate hourlyRate overtimeType hoursToUse
      let sessionId := now
      let session : Session :=
        { id := sessionId
          hourlyRate
          overtimeType
          totalHours
          calculation
          startTime := (now : ℚ)
          isActive := true
          currentEarnings := 0
          warnings := validation.warnings
          isOpenEnded := !(jsTruthy totalHours) }
      ({ st with sessions := mapSet st.sessions sessionId session },
       .ok { sessionId
             calculation
             warnings := validation.warnings
             isOpenEnded := !(jsTruthy totalHours) })

/-- POST /api/stop-session/:sessionId (src/server.js lines 217-238). Sets
`isActive`, `endTime`, `duration` on the session (with no guard that the
session was still active), then updates the default user tracking with
`session.totalHours`. -/
def stopSessionEndpoint (st : ServerState) (sessionId : ℕ) (now : ℚ) :
    ServerState × Except ApiError Session :=
  match mapGet st.sessions sessionId with
  | none => (st, .error .notFound)
  | some session =>
    let stopped := { session with
        isActive := false
        endTime := some now
        duration := some ((now - session.startTime) / 1000) }
    ({ sessions := mapSet st.sessions sessionId stopped
       userOvertimeTracking :=
         updateUserOvertimeTracking st.userOvertimeTracking "default" stopped.totalHours },
     .ok stopped)

/-- GET /api/sessions (src/server.js lines 240-246): a pure listing of all
session snapshots; the state is returned unchanged. -/
def listSessionsEndpoint (st : ServerState) : ServerState × List Session :=
  (st, st.sessions.map (fun p => p.2))

/-- GET /api/overtime-tracking (src/server.js lines 248-255). -/
def getTrackingEndpoint (st : ServerState) : Tracking :=
  (mapGet st.userOvertimeTracking "default").getD zeroTracking

/-- GET /api/session-status/:sessionId (src/server.js lines 258-301): the
session object is mutated in place by sessionStatusUpdate (the map keeps
referencing it), then a projection is returned. -/
def sessionStatusEndpoint (st : ServerState) (sessionId : ℕ) (now : ℚ) :
    ServerState × Except ApiError StatusResponse :=
  match mapGet st.sessions sessionId with
  | none => (st, .error .notFound)
  | some session =>
    let updated := sessionStatusUpdate session now
    ({ st with sessions := mapSet st.sessions sessionId updated },
     .ok (statusResponseOf updated))

/-- One sweep of the 1-second scheduler (src/server.js lines 335-378):
every session is stepped by `tick`; the emitted events are collected with
their session ids. -/
def tickAll (st : ServerState) (now : ℚ) : ServerState × List (ℕ × Event) :=
  let stepped := st.sessions.map (fun p => (p.1, tick p.2 now))
  ({ st with sessions := stepped.map (fun p => (p.1, p.2.1)) },
   stepped.flatMap (fun p => p.2.2.map (fun e => (p.1, e))))

/-- The tracking totals visible for a user: the stored entry or the zeroed
default, as read by both validateOvertimeHours and the tracking endpoint. -/
def trackingOf (m : List (String × Tracking)) (userId : String) : Tracking :=
  (mapGet m userId).getD zeroTracking

/-- A concrete fixed-duration sample session (2 hours at rate 10, normal
type, started at timestamp 0), used to instantiate theorems. -/
def sampleFixedSession : Session :=
  { id := 1
    hourlyRate := 10
    overtimeType := "normal"
    totalHours := some 2
    calculation := calculateOvertimePayFromRate 10 "normal" 2
    startTime := 0
    isActive := true
    currentEarnings := 0
    warnings := []
    isOpenEnded := false }

/-- A concrete open-ended sample session (no totalHours) stored under the
timestamp id 1000, used to instantiate theorems. -/
def sampleOpenSession : Session :=
  { id := 1000
    hourlyRate := 5
    overtimeType := "night"
    totalHours := none
    calculation := calculateOvertimePayFromRate 5 "night" 1
    startTime := 1000
    isActive := true
    currentEarnings := 0
    warnings := []
    isOpenEnded := true }

/-- A server state holding the sample fixed session under id 1 and no
tracking entries, used to instantiate theorems. -/
def oneFixedSessionState : ServerState :=
  { sessions := [(1, sampleFixedSession)], userOvertimeTracking := [] }

/-- The state after stopping session 1 of oneFixedSessionState twice (at
1000 ms and again at 2000 ms). -/
def doubleStopState : ServerState :=
  (stopSessionEndpoint (stopSessionEndpoint oneFixedSessionState 1 1000).1 1 2000).1

/-- A server state that already stores a session under the timestamp id
1000, used to exhibit an id collision. -/
def collisionState : ServerState :=
  { sessions := [(1000, sampleOpenSession)], userOvertimeTracking := [] }

/-- A server state holding the sample open-ended session under id 1000 and
a nonzero tracking entry for the default user. -/
def openSessionState : ServerState :=
  { sessions := [(1000, sampleOpenSession)]
    userOvertimeTracking := [("default", { weekly := 3, yearly := 5 })] }

/-- The result of a start-session call on an empty state at timestamp 7
with rate 10, normal type and no hours. -/
def startOnEmpty : ServerState × Except ApiError StartResponse :=
  startSessionEndpoint { sessions := [], userOvertimeTracking := [] } 10 "normal" none 7

/-! Helper lemmas about the map model. -/

theorem mapGet_mapSet_self {α β : Type} [DecidableEq α]
    (m : List (α × β)) (k : α) (v : β) : mapGet (mapSet m k v) k = some v := by
  induction m with
  | nil => simp [mapSet, mapGet]
  | cons p rest ih =>
    obtain ⟨k₀, v₀⟩ := p
    by_cases h : k₀ = k <;> simp [mapSet, mapGet, h, ih]

theorem mapGet_mapSet_ne {α β : Type} [DecidableEq α]
    (m : List (α × β)) (k k' : α) (v : β) (h : k' ≠ k) :
    mapGet (mapSet m k v) k' = mapGet m k' := by
  have h' : k ≠ k' := Ne.symm h
  induction m with
  | nil => simp [mapSet, mapGet, h']
  | cons p rest ih =>
    obtain ⟨k₀, v₀⟩ := p
    by_cases hk : k₀ = k
    · subst hk
      simp [mapSet, mapGet, h']
    · simp [mapSet, mapGet, hk, ih]

theorem mapGet_eq_none_iff {α β : Type} [DecidableEq α]
    (m : List (α × β)) (k : α) :
    mapGet m k = none ↔ k ∉ m.map Prod.fst := by
  induction m with
  | nil => simp [mapGet]
  | cons p rest ih =>
    obtain ⟨k₀, v₀⟩ := p
    by_cases h : k₀ = k
    · subst h
      simp [mapGet]
    · have h' : k ≠ k₀ := Ne.symm h
      simp [mapGet, h, h', ih]

theorem mapSet_of_absent {α β : Type} [DecidableEq α]
    (m : List (α × β)) (k : α) (v : β) (h : mapGet m k = none) :
    mapSet m k v = m ++ [(k, v)] := by
  induction m with
  | nil => simp [mapSet]
  | cons p rest ih =>
    obtain ⟨k₀, v₀⟩ := p
    by_cases hk : k₀ = k
    · simp [mapGet, hk] at h
    · simp [mapGet, hk] at h
      simp [mapSet, hk, ih h]

theorem trackingOf_update_self (m : List (String × Tracking)) (u : String)
    (h : Option ℚ) :
    trackingOf (updateUserOvertimeTracking m u h) u =
      { weekly := (trackingOf m u).weekly + jsNum h
        yearly := (trackingOf m u).yearly + jsNum h } := by
  unfold trackingOf updateUserOvertimeTracking
  rw [mapGet_mapSet_self]
  rfl

theorem trackingOf_update_ne (m : List (String × Tracking)) (u u' : String)
    (h : Option ℚ) (hne : u' ≠ u) :
    trackingOf (updateUserOvertimeTracking m u h) u' = trackingOf m u' := by
  unfold trackingOf updateUserOvertimeTracking
  rw [mapGet_mapSet_ne _ _ _ _ hne]

theorem tick_inactive (s : Session) (now : ℚ) (h : s.isActive = false) :
    tick s now = (s, []) := by
  unfold tick
  rw [h]
  simp

theorem sessionStatusUpdate_frame (s : Session) (now : ℚ) :
    (sessionStatusUpdate s now).startTime = s.startTime ∧
    (sessionStatusUpdate s now).hourlyRate = s.hourlyRate ∧
    (sessionStatusUpdate s now).overtimeType = s.overtimeType := by
  unfold sessionStatusUpdate
  split_ifs <;> (try simp) <;> (try split_ifs) <;> simp

/-- C6: calculateHourlyRate divides the monthly salary by 30 working days
times the daily hours. -/
theorem C6_hourly_rate_formula (salary dailyHours : ℚ)
    (hs : 0 < salary) (hd : 0 < dailyHours) :
    calculateHourlyRate salary dailyHours = salary / (30 * dailyHours) := rfl

/-- Witness for C6 at the documented example (5000 ETB salary, 8h/day). -/
theorem C6_hourly_rate_formula_witness :
    0 < (5000 : ℚ) ∧ 0 < (8 : ℚ) ∧
    calculateHourlyRate 5000 8 = 5000 / (30 * 8) :=
  ⟨by norm_num, by norm_num,
   C6_hourly_rate_formula 5000 8 (by norm_num) (by norm_num)⟩

/-- C5: for positive hours, totalPay is hourlyRate times the type
multiplier times hours, the returned ratePerSecond times hours times 3600
recovers totalPay exactly, and the multiplier table is 1.5 / 1.75 / 2.0 /
2.5 with 1.5 for any unknown type. -/
theorem C5_pay_calculation (hourlyRate : ℚ) (overtimeType : String)
    (hours : ℚ) (h : 0 < hours) :
    (calculateOvertimePayFromRate hourlyRate overtimeType hours).totalPay =
      hourlyRate * multiplierOf overtimeType * hours ∧
    (calculateOvertimePayFromRate hourlyRate overtimeType hours).ratePerSecond *
        hours * 3600 =
      (calculateOvertimePayFromRate hourlyRate overtimeType hours).totalPay ∧
    multiplierOf "normal" = 1.5 ∧
    multiplierOf "night" = 1.75 ∧
    multiplierOf "sunday" = 2 ∧
    multiplierOf "holiday" = 2.5 ∧
    (∀ t, t ≠ "normal" → t ≠ "night" → t ≠ "sunday" → t ≠ "holiday" →
      multiplierOf t = 1.5) := by
  have e1 : ¬ ("night" = "normal") := by decide
  have e2 : ¬ ("sunday" = "normal") := by decide
  have e3 : ¬ ("sunday" = "night") := by decide
  have e4 : ¬ ("holiday" = "normal") := by decide
  have e5 : ¬ ("holiday" = "night") := by decide
  have e6 : ¬ ("holiday" = "sunday") := by decide
  refine ⟨rfl, ?_, by norm_num [multiplierOf, OVERTIME_MULTIPLIERS],
    by norm_num [multiplierOf, OVERTIME_MULTIPLIERS, e1],
    by norm_num [multiplierOf, OVERTIME_MULTIPLIERS, e2, e3],
    by norm_num [multiplierOf, OVERTIME_MULTIPLIERS, e4, e5, e6], ?_⟩
  · show hourlyRate * multiplierOf overtimeType * hours / (hours * 3600) *
      hours * 3600 = hourlyRate * multiplierOf overtimeType * hours
    have h36 : hours * 3600 ≠ 0 := by positivity
    field_simp
    ring
  · intro t h1 h2 h3 h4
    simp [multiplierOf, OVERTIME_MULTIPLIERS, h1, h2, h3, h4]

/-- Witness for C5 at rate 20.83, normal type, 2 hours (the documented
example; totalPay is 62.49). -/
theorem C5_pay_calculation_witness :
    (calculateOvertimePayFromRate 20.83 "normal" 2).totalPay =
      20.83 * multiplierOf "normal" * 2 ∧
    (calculateOvertimePayFromRate 20.83 "normal" 2).totalPay = 62.49 :=
  ⟨(C5_pay_calculation 20.83 "normal" 2 (by norm_num)).1, by
    norm_num [calculateOvertimePayFromRate, multiplierOf, OVERTIME_MULTIPLIERS]⟩

/-- C1: the validator is invalid with a non-empty errors list exactly when
the candidate hours are non-positive; for positive hours it is valid with
an empty errors list regardless of the tracking totals, and each exceeded
cap (daily 4h, weekly 12h, yearly 100h, sustainability 8h) contributes a
warning only. -/
theorem C1_validation_advisory (trackMap : List (String × Tracking))
    (hours : ℚ) (type userId : String) :
    (((validateOvertimeHours trackMap hours type userId).isValid = false ∧
      (validateOvertimeHours trackMap hours type userId).errors ≠ []) ↔ hours ≤ 0) ∧
    (0 < hours →
      (validateOvertimeHours trackMap hours type userId).isValid = true ∧
      (validateOvertimeHours trackMap hours type userId).errors = []) ∧
    (MAX_HOURS_PER_DAY < hours →
      Msg.dailyLimit ∈ (validateOvertimeHours trackMap hours type userId).warnings) ∧
    (MAX_HOURS_PER_WEEK < (trackingOf trackMap userId).weekly + hours →
      Msg.weeklyLimit (trackingOf trackMap userId).weekly hours
          ((trackingOf trackMap userId).weekly + hours) ∈
        (validateOvertimeHours trackMap hours type userId).warnings) ∧
    (MAX_HOURS_PER_YEAR < (trackingOf trackMap userId).yearly + hours →
      Msg.yearlyLimit (trackingOf trackMap userId).yearly hours
          ((trackingOf trackMap userId).yearly + hours) ∈
        (validateOvertimeHours trackMap hours type userId).warnings) ∧
    (8 < hours →
      Msg.sustainability ∈ (validateOvertimeHours trackMap hours type userId).warnings) := by
  unfold validateOvertimeHours trackingOf
  by_cases h : hours ≤ 0
  · refine ⟨by simp [h], fun hpos => absurd hpos (by simpa using h), ?_, ?_, ?_, ?_⟩ <;>
      intro hw <;> simp [h, hw]
  · push_neg at h
    refine ⟨by simp [not_le.mpr h], fun _ => by simp [not_le.mpr h], ?_, ?_, ?_, ?_⟩ <;>
      intro hw <;> simp [not_le.mpr h, hw]

/-- Witness for C1 at hours 4.01 with a zeroed tracking map: valid, no
errors, and a daily-limit warning is present. -/
theorem C1_validation_advisory_witness :
    (validateOvertimeHours [] 4.01 "normal" "default").isValid = true ∧
    (validateOvertimeHours [] 4.01 "normal" "default").errors = [] ∧
    Msg.dailyLimit ∈ (validateOvertimeHours [] 4.01 "normal" "default").warnings := by
  have h := C1_validation_advisory [] 4.01 "normal" "default"
  exact ⟨(h.2.1 (by norm_num)).1, (h.2.1 (by norm_num)).2,
    h.2.2.1 (by norm_num [MAX_HOURS_PER_DAY])⟩

/-- C2: a fixed-duration active session whose elapsed time has reached
totalHours times 3600 seconds is completed by the next tick: isActive
becomes false, endTime is set to now, duration equals the elapsed time,
currentEarnings is set exactly to the precomputed calculation.totalPay,
and exactly one session-complete event is emitted; every later tick on the
completed session changes nothing and emits nothing, and the status query
applies the same completing transition. -/
theorem C2_fixed_session_completion (s : Session) (now : ℚ) (H : ℚ)
    (hAct : s.isActive = true) (hOpen : s.isOpenEnded = false)
    (hTot : s.totalHours = some H)
    (hElapsed : H * 3600 ≤ (now - s.startTime) / 1000) :
    tick s now =
      ({ s with
          isActive := false
          endTime := some now
          duration := some ((now - s.startTime) / 1000)
          currentEarnings := s.calculation.totalPay },
       [Event.sessionComplete s.calculation.totalPay ((now - s.startTime) / 1000)]) ∧
    (∀ later, tick (tick s now).1 later = ((tick s now).1, [])) ∧
    sessionStatusUpdate s now =
      { s with
          isActive := false
          endTime := some now
          duration := some ((now - s.startTime) / 1000)
          currentEarnings := s.calculation.totalPay
          elapsedTime := some ((now - s.startTime) / 1000)
          remainingTime := some (some 0) } := by
  have hnotlt : ¬ ((now - s.startTime) / 1000 < jsNum s.totalHours * 3600) := by
    rw [hTot]
    simp only [jsNum, Option.getD]
    exact not_lt.mpr hElapsed
  refine ⟨?_, ?_, ?_⟩
  · simp [tick, hAct, hOpen, hnotlt]
  · intro later
    simp [tick, hAct, hOpen, hnotlt]
  · simp [sessionStatusUpdate, hAct, hOpen, hnotlt]

/-- Witness for C2: the sample 2-hour fixed session ticked at 7200000 ms
(exactly 2 hours after its start). -/
theorem C2_fixed_session_completion_witness :
    (tick sampleFixedSession 7200000).1.isActive = false ∧
    (tick sampleFixedSession 7200000).1.currentEarnings =
      sampleFixedSession.calculation.totalPay ∧
    (tick sampleFixedSession 7200000).2 =
      [Event.sessionComplete sampleFixedSession.calculation.totalPay 7200] := by
  have h := C2_fixed_session_completion sampleFixedSession 7200000 2 rfl rfl rfl
    (by norm_num [sampleFixedSession])
  refine ⟨?_, ?_, ?_⟩
  · rw [h.1]
  · rw [h.1]
  · rw [h.1]
    norm_num [sampleFixedSession]

/-- C4 counterexample: for the sample fixed session one hour in, a
scheduler tick leaves the stored elapsedTime unset while the status query
writes it, so the two paths do not produce identical session fields. -/
theorem C4_counterexample :
    (tick sampleFixedSession 3600000).1.elapsedTime = none ∧
    (sessionStatusUpdate sampleFixedSession 3600000).elapsedTime = some 3600 ∧
    (tick sampleFixedSession 3600000).1.elapsedTime ≠
      (sessionStatusUpdate sampleFixedSession 3600000).elapsedTime := by
  have hlt : ((3600000 : ℚ) - sampleFixedSession.startTime) / 1000 <
      jsNum sampleFixedSession.totalHours * 3600 := by
    norm_num [sampleFixedSession, jsNum]
  refine ⟨?_, ?_, ?_⟩
  · simp only [tick, sampleFixedSession]
    split_ifs <;> rfl
  · simp [sessionStatusUpdate, hlt]
    norm_num [sampleFixedSession]
  · simp only [tick, sessionStatusUpdate, sampleFixedSession]
    split_ifs <;> simp

/-- C4 amended: a status query performs the same transition as a scheduler
tick on the fields the tick writes (isActive, endTime, duration,
currentEarnings), and the tick never changes the stored elapsedTime and
remainingTime, which only the status query updates; the tick alone emits
events. -/
theorem C4_amended_status_vs_tick (s : Session) (now : ℚ) :
    (tick s now).1.isActive = (sessionStatusUpdate s now).isActive ∧
    (tick s now).1.endTime = (sessionStatusUpdate s now).endTime ∧
    (tick s now).1.duration = (sessionStatusUpdate s now).duration ∧
    (tick s now).1.currentEarnings = (sessionStatusUpdate s now).currentEarnings ∧
    (tick s now).1.elapsedTime = s.elapsedTime ∧
    (tick s now).1.remainingTime = s.remainingTime := by
  simp only [tick, sessionStatusUpdate]
  split_ifs <;> simp

theorem updateTracking_none (m : List (String × Tracking)) (u u' : String) :
    trackingOf (updateUserOvertimeTracking m u none) u' = trackingOf m u' := by
  by_cases h : u' = u
  · subst h
    rw [trackingOf_update_self]
    simp [jsNum]
  · exact trackingOf_update_ne m u u' none h

theorem startSession_ok_inv (st : ServerState) (r : ℚ) (t : String)
    (h : Option ℚ) (now : ℕ) (st' : ServerState) (resp : StartResponse)
    (heq : startSessionEndpoint st r t h now = (st', Except.ok resp)) :
    resp.sessionId = now ∧
    ∃ sess : Session, st' = { st with sessions := mapSet st.sessions now sess } := by
  unfold startSessionEndpoint at heq
  split_ifs at heq
  · simp only [Prod.mk.injEq] at heq
    exact absurd heq.2 (by simp)
  · simp only [Prod.mk.injEq] at heq
    exact absurd heq.2 (by simp)
  · simp only [] at heq
    split_ifs at heq
    · simp only [Prod.mk.injEq] at heq
      exact absurd heq.2 (by simp)
    · simp only [Prod.mk.injEq] at heq
      obtain ⟨hst, hok⟩ := heq
      simp only [Except.ok.injEq] at hok
      subst hok
      exact ⟨rfl, _, hst.symm⟩

/-- C3 counterexample: stopping the same fixed 2-hour session twice adds
its totalHours to the default tracking twice (weekly total 4, not 2), so
tracking is not updated exactly once per session. -/
theorem C3_counterexample :
    (trackingOf doubleStopState.userOvertimeTracking "default").weekly = 4 ∧
    (trackingOf doubleStopState.userOvertimeTracking "default").weekly ≠ 2 := by
  have h : trackingOf doubleStopState.userOvertimeTracking "default" =
      { weekly := 4, yearly := 4 } := by
    simp [doubleStopState, oneFixedSessionState, stopSessionEndpoint, mapGet, mapSet,
      updateUserOvertimeTracking, trackingOf, zeroTracking, jsNum, sampleFixedSession]
    norm_num
  rw [h]
  norm_num

/-- C3 amended: each stop of a stored session adds the totalHours of that session
 (null coercing to 0) to the weekly and yearly
totals of the default user, and leaves totals of other users unchanged; start, tick, status
query and listing never change the tracking map. Because the code has no
guard against stopping an already-stopped session, the addition happens on
every stop call, not exactly once per session. -/
theorem C3_amended_tracking_update :
    (∀ st sid now s, mapGet st.sessions sid = some s →
      trackingOf (stopSessionEndpoint st sid now).1.userOvertimeTracking "default" =
        { weekly := (trackingOf st.userOvertimeTracking "default").weekly + jsNum s.totalHours
          yearly := (trackingOf st.userOvertimeTracking "default").yearly + jsNum s.totalHours }) ∧
    (∀ st sid now u, u ≠ "default" →
      trackingOf (stopSessionEndpoint st sid now).1.userOvertimeTracking u =
        trackingOf st.userOvertimeTracking u) ∧
    (∀ st r t h n,
      (startSessionEndpoint st r t h n).1.userOvertimeTracking = st.userOvertimeTracking) ∧
    (∀ st now, (tickAll st now).1.userOvertimeTracking = st.userOvertimeTracking) ∧
    (∀ st sid now,
      (sessionStatusEndpoint st sid now).1.userOvertimeTracking = st.userOvertimeTracking) ∧
    (∀ st, (listSessionsEndpoint st).1 = st) := by
  refine ⟨?_, ?_, ?_, ?_, ?_, ?_⟩
  · intro st sid now s hget
    simp only [stopSessionEndpoint, hget]
    rw [trackingOf_update_self]
  · intro st sid now u hu
    cases hM : mapGet st.sessions sid with
    | none => simp [stopSessionEndpoint, hM]
    | some s =>
      simp only [stopSessionEndpoint, hM]
      exact trackingOf_update_ne _ _ _ _ hu
  · intro st r t h n
    simp only [startSessionEndpoint]
    split_ifs <;> rfl
  · intro st now
    rfl
  · intro st sid now
    cases hM : mapGet st.sessions sid <;> simp [sessionStatusEndpoint, hM]
  · intro st
    rfl

/-- Witness for C3 (amended): stopping the stored fixed 2-hour session in
oneFixedSessionState once yields weekly and yearly totals of 2. -/
theorem C3_amended_tracking_update_witness :
    trackingOf (stopSessionEndpoint oneFixedSessionState 1 1000).1.userOvertimeTracking
      "default" = { weekly := 2, yearly := 2 } := by
  have h := C3_amended_tracking_update.1 oneFixedSessionState 1 1000 sampleFixedSession rfl
  rw [h]
  norm_num [oneFixedSessionState, trackingOf, mapGet, zeroTracking, sampleFixedSession, jsNum]

/-- C7 counterexample: starting a session at a timestamp whose id already
exists in the store reuses that id (the id is not fresh) and overwrites
the stored session instead of adding a new one. -/
theorem C7_counterexample :
    mapGet collisionState.sessions 1000 ≠ none ∧
    (startSessionEndpoint collisionState 10 "normal" (some 2) 1000).2 =
      Except.ok { sessionId := 1000
                  calculation := calculateOvertimePayFromRate 10 "normal" 2
                  warnings := []
                  isOpenEnded := false } ∧
    (startSessionEndpoint collisionState 10 "normal" (some 2) 1000).1.sessions.length = 1 ∧
    mapGet (startSessionEndpoint collisionState 10 "normal" (some 2) 1000).1.sessions 1000 ≠
      some sampleOpenSession := by
  have hne : ("normal" : String) ≠ "" := by decide
  refine ⟨by simp [collisionState, mapGet], ?_, ?_, ?_⟩
  · simp [startSessionEndpoint, collisionState, validateOvertimeHours, jsTruthy, jsOrNum,
      jsOrNull, mapGet, trackingOf, zeroTracking, MAX_HOURS_PER_DAY, MAX_HOURS_PER_WEEK,
      MAX_HOURS_PER_YEAR, hne]
    norm_num
  · simp [startSessionEndpoint, collisionState, validateOvertimeHours, jsTruthy, jsOrNum,
      jsOrNull, mapGet, mapSet, trackingOf, zeroTracking, MAX_HOURS_PER_DAY,
      MAX_HOURS_PER_WEEK, MAX_HOURS_PER_YEAR, hne]
    norm_num [mapSet]
  · simp [startSessionEndpoint, collisionState, validateOvertimeHours, jsTruthy, jsOrNum,
      jsOrNull, mapGet, mapSet, trackingOf, zeroTracking, MAX_HOURS_PER_DAY,
      MAX_HOURS_PER_WEEK, MAX_HOURS_PER_YEAR, hne, sampleOpenSession]

/-- C7 amended: a successful start-session call assigns the creation
timestamp as the session id; when that timestamp differs from every stored
id the id is fresh (the store gains it without touching other entries and
keeps its ids pairwise distinct), and of two successful calls the one at
the strictly later timestamp receives the strictly greater id. Two calls
in the same millisecond would reuse the same id and overwrite. -/
theorem C7_amended_fresh_ids :
    (∀ st r t h now st' resp,
      startSessionEndpoint st r t h now = (st', Except.ok resp) →
      resp.sessionId = now ∧
      (mapGet st.sessions now = none →
        mapGet st'.sessions now ≠ none ∧
        (∀ k, k ≠ now → mapGet st'.sessions k = mapGet st.sessions k) ∧
        ((st.sessions.map Prod.fst).Nodup → (st'.sessions.map Prod.fst).Nodup))) ∧
    (∀ st₁ r₁ t₁ h₁ n₁ st₁' resp₁ st₂ r₂ t₂ h₂ n₂ st₂' resp₂,
      startSessionEndpoint st₁ r₁ t₁ h₁ n₁ = (st₁', Except.ok resp₁) →
      startSessionEndpoint st₂ r₂ t₂ h₂ n₂ = (st₂', Except.ok resp₂) →
      n₁ < n₂ → resp₁.sessionId < resp₂.sessionId) := by
  constructor
  · intro st r t h now st' resp heq
    obtain ⟨hid, sess, hst⟩ := startSession_ok_inv st r t h now st' resp heq
    refine ⟨hid, fun habs => ?_⟩
    subst hst
    refine ⟨?_, ?_, ?_⟩
    · simp [mapGet_mapSet_self]
    · intro k hk
      exact mapGet_mapSet_ne _ _ _ _ hk
    · intro hnd
      have hk : now ∉ st.sessions.map Prod.fst := (mapGet_eq_none_iff _ _).mp habs
      simp [mapSet_of_absent _ _ _ habs, List.nodup_append, hnd, hk]
  · intro st₁ r₁ t₁ h₁ n₁ st₁' resp₁ st₂ r₂ t₂ h₂ n₂ st₂' resp₂ heq₁ heq₂ hlt
    rw [(startSession_ok_inv st₁ r₁ t₁ h₁ n₁ st₁' resp₁ heq₁).1,
      (startSession_ok_inv st₂ r₂ t₂ h₂ n₂ st₂' resp₂ heq₂).1]
    exact_mod_cast hlt

/-- Witness for C7 (amended): a start on the empty store at timestamp 7
succeeds, returns id 7, and stores the session under the fresh id 7. -/
theorem C7_amended_fresh_ids_witness :
    (startOnEmpty.2 = Except.ok
      { sessionId := 7,
        calculation := calculateOvertimePayFromRate 10 "normal" 1,
        warnings := [],
        isOpenEnded := true }) ∧
      mapGet startOnEmpty.1.sessions 7 ≠ none := by
  have heq : startSessionEndpoint { sessions := [], userOvertimeTracking := [] }
      10 "normal" none 7 =
      (startOnEmpty.1, Except.ok
        { sessionId := 7,
          calculation := calculateOvertimePayFromRate 10 "normal" 1,
          warnings := [],
          isOpenEnded := true }) := by
    have hne : ("normal" : String) ≠ "" := by decide
    norm_num [startOnEmpty, startSessionEndpoint, validateOvertimeHours, jsTruthy, jsOrNum,
      jsOrNull, trackingOf, mapGet, zeroTracking, MAX_HOURS_PER_DAY, MAX_HOURS_PER_WEEK,
      MAX_HOURS_PER_YEAR, hne]
  have h := C7_amended_fresh_ids.1 { sessions := [], userOvertimeTracking := [] }
    10 "normal" none 7 startOnEmpty.1
    { sessionId := 7,
      calculation := calculateOvertimePayFromRate 10 "normal" 1,
      warnings := [],
      isOpenEnded := true } heq
  refine ⟨?_, (h.2 rfl).1⟩
  rw [startOnEmpty]
  exact congrArg Prod.snd heq

/-- C8: the status query never changes the startTime,
hourlyRate or overtimeType (for any session id in the store), and listing
sessions leaves the whole state unchanged. -/
theorem C8_query_preserves_identity_fields :
    (∀ st sid now k,
      (mapGet (sessionStatusEndpoint st sid now).1.sessions k).map Session.startTime =
        (mapGet st.sessions k).map Session.startTime ∧
      (mapGet (sessionStatusEndpoint st sid now).1.sessions k).map Session.hourlyRate =
        (mapGet st.sessions k).map Session.hourlyRate ∧
      (mapGet (sessionStatusEndpoint st sid now).1.sessions k).map Session.overtimeType =
        (mapGet st.sessions k).map Session.overtimeType) ∧
    (∀ st, (listSessionsEndpoint st).1 = st) := by
  constructor
  · intro st sid now k
    cases hM : mapGet st.sessions sid with
    | none => simp [sessionStatusEndpoint, hM]
    | some s =>
      simp only [sessionStatusEndpoint, hM]
      by_cases hk : k = sid
      · subst hk
        rw [mapGet_mapSet_self, hM]
        obtain ⟨h1, h2, h3⟩ := sessionStatusUpdate_frame s now
        simp [h1, h2, h3]
      · rw [mapGet_mapSet_ne _ _ _ _ hk]
        exact ⟨rfl, rfl, rfl⟩
  · intro st
    rfl

/-- C9: a supplied hours value of 0 behaves exactly like an absent hours
field at both the calculate and start-session endpoints; with a positive
rate and a non-empty type, calculate previews 1 hour with isPreview true
and start-session creates an open-ended session (totalHours null,
isOpenEnded true); the non-positive-hours validation error is never
returned for hours = 0. -/
theorem C9_zero_hours_like_absent :
    (∀ st r t, calculateEndpoint st r t (some 0) = calculateEndpoint st r t none) ∧
    (∀ st r t n,
      startSessionEndpoint st r t (some 0) n = startSessionEndpoint st r t none n) ∧
    (∀ st r t, 0 < r → t ≠ "" →
      calculateEndpoint st r t (some 0) =
        Except.ok { calculation := calculateOvertimePayFromRate r t 1
                    warnings := (validateOvertimeHours st.userOvertimeTracking 1 t "default").warnings
                    isPreview := true }) ∧
    (∀ st r t n, 0 < r → t ≠ "" →
      (startSessionEndpoint st r t (some 0) n).2 =
        Except.ok { sessionId := n
                    calculation := calculateOvertimePayFromRate r t 1
                    warnings := (validateOvertimeHours st.userOvertimeTracking 1 t "default").warnings
                    isOpenEnded := true } ∧
      (mapGet (startSessionEndpoint st r t (some 0) n).1.sessions n).map Session.totalHours =
        some none ∧
      (mapGet (startSessionEndpoint st r t (some 0) n).1.sessions n).map Session.isOpenEnded =
        some true) ∧
    (∀ st r t errs,
      calculateEndpoint st r t (some 0) ≠ Except.error (ApiError.validationFailed errs)) ∧
    (∀ st r t n errs,
      (startSessionEndpoint st r t (some 0) n).2 ≠
        Except.error (ApiError.validationFailed errs)) := by
  have hvalid : ∀ m t, (validateOvertimeHours m 1 t "default").isValid = true := by
    intro m t
    simp [validateOvertimeHours]
  refine ⟨?_, ?_, ?_, ?_, ?_, ?_⟩
  · intro st r t
    simp [calculateEndpoint, jsOrNum, jsTruthy]
  · intro st r t n
    simp [startSessionEndpoint, jsOrNull, jsOrNum, jsTruthy]
  · intro st r t hr ht
    simp [calculateEndpoint, hr.ne', ht, not_le.mpr hr, jsOrNum, jsTruthy, hvalid]
  · intro st r t n hr ht
    refine ⟨?_, ?_, ?_⟩ <;>
      simp [startSessionEndpoint, hr.ne', ht, not_le.mpr hr, jsOrNull, jsOrNum, jsTruthy,
        hvalid, mapGet_mapSet_self]
  · intro st r t errs
    by_cases h1 : r = 0 ∨ t = ""
    · simp [calculateEndpoint, h1]
    · by_cases h2 : r ≤ 0
      · simp [calculateEndpoint, h1, h2]
      · simp [calculateEndpoint, h1, h2, jsOrNum, jsTruthy, hvalid]
  · intro st r t n errs
    by_cases h1 : r = 0 ∨ t = ""
    · simp [startSessionEndpoint, h1]
    · by_cases h2 : r ≤ 0
      · simp [startSessionEndpoint, h1, h2]
      · simp [startSessionEndpoint, h1, h2, jsOrNull, jsOrNum, jsTruthy, hvalid]

/-- Witness for C9 at rate 10, normal type, on the empty state. -/
theorem C9_zero_hours_like_absent_witness :
    calculateEndpoint { sessions := [], userOvertimeTracking := [] } 10 "normal" (some 0) =
      Except.ok { calculation := calculateOvertimePayFromRate 10 "normal" 1
                  warnings := (validateOvertimeHours [] 1 "normal" "default").warnings
                  isPreview := true } ∧
    (mapGet (startSessionEndpoint { sessions := [], userOvertimeTracking := [] }
        10 "normal" (some 0) 5).1.sessions 5).map Session.isOpenEnded = some true := by
  have h := C9_zero_hours_like_absent
  exact ⟨h.2.2.1 { sessions := [], userOvertimeTracking := [] } 10 "normal"
      (by norm_num) (by decide),
    (h.2.2.2.1 { sessions := [], userOvertimeTracking := [] } 10 "normal" 5
      (by norm_num) (by decide)).2.2⟩

/-- C10: stopping a stored open-ended session (totalHours null) leaves
the visible tracking totals of every user numerically unchanged, because
updateUserOvertimeTracking is called with a null hours argument and adding
null adds 0 to both running sums. -/
theorem C10_open_ended_stop_keeps_tracking :
    (∀ st sid now s, mapGet st.sessions sid = some s → s.totalHours = none →
      ∀ u, trackingOf (stopSessionEndpoint st sid now).1.userOvertimeTracking u =
        trackingOf st.userOvertimeTracking u) ∧
    (∀ m u u', trackingOf (updateUserOvertimeTracking m u none) u' = trackingOf m u') := by
  refine ⟨?_, updateTracking_none⟩
  intro st sid now s hget htot u
  simp only [stopSessionEndpoint, hget, htot]
  exact updateTracking_none _ _ _

/-- Witness for C10: stopping the stored open-ended session of
openSessionState leaves the default tracking at weekly 3, yearly 5. -/
theorem C10_open_ended_stop_keeps_tracking_witness :
    trackingOf (stopSessionEndpoint openSessionState 1000 2000).1.userOvertimeTracking
      "default" = { weekly := 3, yearly := 5 } := by
  have h := C10_open_ended_stop_keeps_tracking.1 openSessionState 1000 2000
    sampleOpenSession rfl rfl "default"
  rw [h]
  rfl

end OvertimeClock
